import Mathlib

/-!
Shallow embedding of the AI marking pipeline of the assessment-management
repository (source file `ai_marking.py`, class `AssessmentAI`).

Natural-language-processing primitives (the spaCy tagger, regular-expression
scanning, HTTP fetching, HTML parsing, embedding similarity) are external
collaborators in the source; per the specification's external-interface
section they are modelled here as abstract capabilities collected in a
`Caps` record.  All arithmetic, control flow and string manipulation of the
Python source is embedded directly.  Python floats are modelled by exact
rationals; Python `round` (round half to even) is `pythonRound`; Python
dictionaries are modelled as a value map together with the insertion-ordered
key list.
-/

/-- Python `str.lower` (ASCII model of lower-casing). -/
def pyLower (s : String) : String := ⟨s.data.map Char.toLower⟩

/-- Python substring test `needle in hay`. -/
def pyIn (needle hay : String) : Bool := decide (needle.data <:+: hay.data)

/-- Worker for `pySplit`: collect maximal runs of non-whitespace
characters (the accumulator holds the current word reversed). -/
def splitWsAux : List Char → List Char → List (List Char)
  | [], cur => if cur = [] then [] else [cur.reverse]
  | c :: rest, cur =>
    if c.isWhitespace then
      if cur = [] then splitWsAux rest [] else cur.reverse :: splitWsAux rest []
    else splitWsAux rest (c :: cur)

/-- Python `str.split()` with no argument: split on whitespace runs,
dropping empty pieces. -/
def pySplit (s : String) : List String :=
  (splitWsAux s.data []).map (fun l => ⟨l⟩)

/-- Worker for `pySplitParas`: split at each non-overlapping occurrence of
a blank line (two consecutive newlines), scanning left to right. -/
def splitParasAux : List Char → List Char → List (List Char)
  | [], cur => [cur.reverse]
  | '\n' :: '\n' :: rest, cur => cur.reverse :: splitParasAux rest []
  | c :: rest, cur => splitParasAux rest (c :: cur)

/-- Python `text.split("\n\n")`. -/
def pySplitParas (s : String) : List String :=
  (splitParasAux s.data []).map (fun l => ⟨l⟩)

/-- Python `str.endswith`. -/
def pyEndsWith (s suffix : String) : Bool := decide (suffix.data <:+ s.data)

/-- Python slicing `s[:n]` (by code points, as Python indexes strings). -/
def pyTake (s : String) (n : ℕ) : String := ⟨s.data.take n⟩

/-- Python `str.strip()`: drop leading and trailing whitespace. -/
def pyStrip (s : String) : String :=
  ⟨((s.data.dropWhile Char.isWhitespace).reverse.dropWhile Char.isWhitespace).reverse⟩

/-- Python `str.rstrip(":)")` as used on criterion headers. -/
def pyRstripColonParen (s : String) : String :=
  ⟨(s.data.reverse.dropWhile (fun c => c == ':' || c == ')')).reverse⟩

/-- Python `round` on a rational: round half to even (banker's rounding). -/
def pythonRound (q : ℚ) : ℤ :=
  let f : ℤ := ⌊q⌋
  let frac : ℚ := q - (f : ℚ)
  if frac < 1/2 then f
  else if 1/2 < frac then f + 1
  else if f % 2 = 0 then f else f + 1

/-- A marking criterion as produced by `process_rubric`. -/
structure Criterion where
  name : String
  weight : ℤ
  description : String
  keywords : List String
deriving DecidableEq

/-- Result of `process_assessment_brief` (only the fields the Marking Engine
reads are relevant to the claims; all are carried for fidelity). -/
structure BriefAnalysis where
  requirements : List String
  learning_outcomes : List String
  submission_details : List String
  key_topics : List String
  full_text : String
deriving DecidableEq

/-- Result of `process_rubric`. -/
structure RubricAnalysis where
  criteria : List Criterion
  grade_boundaries : List (String × ℤ × ℤ)
  full_text : String
deriving DecidableEq

/-- Result of `analyze_url_content`.  The Python function returns one of
three dictionary shapes: a full record with `key_phrases`/`entities` (content
non-empty), a record without those two keys (content empty), or the failure
variant `{url, error, status: failed}`. -/
inductive UrlAnalysis where
  | success (url : String) (title : String) (meta_description : String)
      (key_phrases : List String) (entities : List (String × String))
      (content_sample : String)
  | successNoContent (url : String) (title : String) (meta_description : String)
      (content_sample : String)
  | failed (url : String) (error : String)
deriving DecidableEq

/-- Whether a `UrlAnalysis` is the failure variant. -/
def UrlAnalysis.is_failed : UrlAnalysis → Bool
  | .failed _ _ => true
  | _ => false

/-- Whether a `UrlAnalysis` record carries the `key_phrases` and `entities`
fields (only the full success shape does). -/
def UrlAnalysis.has_phrase_fields : UrlAnalysis → Bool
  | .success _ _ _ _ _ _ => true
  | _ => false

/-- Per-criterion feedback produced by `_generate_criterion_feedback`. -/
structure CriterionFeedback where
  strength : Option String
  weakness : Option String
  suggestions : String
deriving DecidableEq

/-- One entry of `criteria_marks` in a marking result. -/
structure CriterionMark where
  name : String
  score : ℤ
  max_score : ℤ
  feedback : CriterionFeedback
deriving DecidableEq

/-- Overall feedback produced by `_generate_overall_feedback`. -/
structure OverallFeedback where
  general_comments : String
  strengths : List String
  areas_for_improvement : List String
  recommendations : List String
deriving DecidableEq

/-- The `statistics` sub-record of a marking result. -/
structure MarkStatistics where
  word_count : ℕ
  sentence_count : ℕ
  avg_sentence_length : ℚ
  url_count : ℕ
  topic_coverage : ℚ
deriving DecidableEq

/-- Result of `mark_student_work`. -/
structure MarkingResult where
  total_score : ℤ
  max_score : ℤ
  percentage : ℚ
  grade : String
  criteria_marks : List CriterionMark
  feedback : OverallFeedback
  statistics : MarkStatistics
  url_analyses : List UrlAnalysis
deriving DecidableEq

/-- One match of the weighted-header regular expression
`Name (NN%): description` of the rubric parser's first pass. -/
structure RegexMatch where
  name : String
  weight : ℤ
  description : String
deriving DecidableEq

/-- External capabilities of the pipeline: the spaCy tagger (noun chunks
with the part-of-speech of their head, named entities, token counts,
sentence segmentation, keyword extraction, embedding similarity), the
regular-expression passes, and the HTTP/HTML stack.  Everything downstream
of these calls is embedded concretely. -/
structure Caps where
  fetch : String → Except String String
  titleOf : String → Option String
  paragraphTexts : String → List String
  metaDescription : String → Option String
  nounChunks : String → List (String × String)
  entities : String → List (String × String)
  sim : String → String → ℚ
  wordCount : String → ℕ
  sentCount : String → ℕ
  extractUrls : String → List String
  extractKeywords : String → List String
  weightedMatches : String → List RegexMatch
  gradeBoundaries : String → List (String × ℤ × ℤ)

/-- The fixed default criteria set of `process_rubric`. -/
def default_criteria : List Criterion :=
  [{ name := "Content", weight := 40,
     description := "Quality and comprehensiveness of content",
     keywords := ["content", "quality", "comprehensive", "understanding", "knowledge"] },
   { name := "Structure", weight := 30,
     description := "Organization and logical flow",
     keywords := ["structure", "organization", "flow", "coherent", "logical"] },
   { name := "Research", weight := 20,
     description := "Use of sources and evidence",
     keywords := ["research", "sources", "evidence", "references", "citation"] },
   { name := "Language", weight := 10,
     description := "Grammar, spelling, and academic writing style",
     keywords := ["language", "grammar", "spelling", "writing", "style"] }]

/-- State of the paragraph-heuristic pass of `process_rubric`: the current
criterion header, its accumulated description paragraphs, and the criteria
built so far. -/
structure ParaState where
  current : Option String
  descs : List String
  acc : List Criterion

/-- Close the currently open criterion header (weight defaults to 25).
The source guards this with `if current_criterion:`, which is Python
truthiness: falsy both for `None` and for a header that stripped down to
the empty string — an empty-named criterion is never saved. -/
def closeCurrent (caps : Caps) (st : ParaState) : List Criterion :=
  match st.current with
  | some nm =>
      if nm = "" then st.acc
      else
        st.acc ++ [{ name := nm,
                     weight := 25,
                     description := String.intercalate " " st.descs,
                     keywords := caps.extractKeywords (String.intercalate " " st.descs) }]
  | none => st.acc

/-- One step of the paragraph-heuristic pass: strip the paragraph, skip it
when empty, open a new criterion when it looks like a header (at most 10
words and ending in a colon or closing parenthesis), otherwise append it to
the open criterion's description — the latter again under the source's
`if current_criterion:` truthiness, so paragraphs after a header that
stripped to the empty string are dropped. -/
def paraStep (caps : Caps) (st : ParaState) (para0 : String) : ParaState :=
  let para := pyStrip para0
  if para = "" then st
  else if (pySplit para).length ≤ 10 && (pyEndsWith para ":" || pyEndsWith para ")") then
    { current := some (pyRstripColonParen para), descs := [], acc := closeCurrent caps st }
  else
    match st.current with
    | some nm => if nm = "" then st else { st with descs := st.descs ++ [para] }
    | none => st

/-- The paragraph-heuristic (second) pass of `process_rubric`: fold over the
blank-line-delimited paragraphs, then close the last open criterion. -/
def paragraph_pass (caps : Caps) (rubric_text : String) : List Criterion :=
  closeCurrent caps ((pySplitParas rubric_text).foldl (paraStep caps) ⟨none, [], []⟩)

/-- `AssessmentAI.process_rubric`: weighted-pattern pass, then the paragraph
heuristic, then the fixed default criteria; grade boundaries extracted by
the (abstracted) regular-expression helper. -/
def process_rubric (caps : Caps) (rubric_text : String) : RubricAnalysis :=
  let criteria :=
    (caps.weightedMatches rubric_text).map (fun m =>
      { name := pyStrip m.name, weight := m.weight,
        description := pyStrip m.description,
        keywords := caps.extractKeywords (pyStrip m.description) : Criterion })
  let criteria := if criteria = [] then paragraph_pass caps rubric_text else criteria
  let criteria := if criteria = [] then default_criteria else criteria
  { criteria := criteria,
    grade_boundaries := caps.gradeBoundaries rubric_text,
    full_text := rubric_text }

/-- The content concatenation of `analyze_url_content`: the text of every
paragraph of the fetched page, each followed by a space. -/
def extracted_content (caps : Caps) (body : String) : String :=
  (caps.paragraphTexts body).foldl (fun acc p => acc ++ p ++ " ") ""

/-- `AssessmentAI.analyze_url_content`: any fetch failure (including a
non-2xx status, which `raise_for_status` turns into an exception) is caught
and becomes the `failed` variant; otherwise the page is parsed and, only
when the concatenated paragraph content is non-empty, key phrases and named
entities are extracted from its first 5000 characters. -/
def analyze_url_content (caps : Caps) (url : String) : UrlAnalysis :=
  match caps.fetch url with
  | Except.error e => UrlAnalysis.failed url e
  | Except.ok body =>
    let title := (caps.titleOf body).getD "No title"
    let content := extracted_content caps body
    let meta_description := (caps.metaDescription body).getD ""
    let content_sample :=
      if 500 < content.length then pyTake content 500 ++ "..." else content
    if content ≠ "" then
      let doc := pyTake content 5000
      let key_phrases :=
        (((caps.nounChunks doc).map Prod.fst).filter
          (fun t => decide (1 < (pySplit t).length))).take 10
      let ents := (caps.entities doc).take 10
      UrlAnalysis.success url title meta_description key_phrases ents content_sample
    else
      UrlAnalysis.successNoContent url title meta_description content_sample

/-- `AssessmentAI._calculate_topic_coverage`, inner loop: a brief topic is
covered by a student topic when one contains the other as a substring or
their similarity exceeds 0.7. -/
def topic_matches (sim : String → String → ℚ) (brief_topic student_topic : String) : Bool :=
  pyIn brief_topic student_topic || pyIn student_topic brief_topic ||
    decide (7/10 < sim brief_topic student_topic)

/-- `AssessmentAI._calculate_topic_coverage`: 1.0 when there are no brief
topics, otherwise the number of covered brief topics (the inner loop breaks
after the first covering student topic, so each brief topic counts at most
once) divided by the total. -/
def calculate_topic_coverage (sim : String → String → ℚ)
    (student_topics brief_topics : List String) : ℚ :=
  if brief_topics = [] then 1
  else
    (brief_topics.countP (fun bt => student_topics.any (topic_matches sim bt)) : ℚ) /
      (brief_topics.length : ℚ)

/-- `AssessmentAI._calculate_criterion_relevance`: 0.5 when the criterion
has no keywords; otherwise the fraction of keywords present (lower-cased,
substring of the lower-cased text), clamped to [0.3, 0.9]. -/
def calculate_criterion_relevance (text : String) (criterion_keywords : List String) : ℚ :=
  if criterion_keywords = [] then 1/2
  else
    let t := pyLower text
    let keyword_count := criterion_keywords.countP (fun kw => pyIn (pyLower kw) t)
    let relevance := (keyword_count : ℚ) / (criterion_keywords.length : ℚ)
    min (9/10) (max (3/10) relevance)

/-- `AssessmentAI._generate_criterion_feedback` (the `student_text` and
`criterion_description` parameters are accepted and ignored, as in the
source). -/
def generate_criterion_feedback (criterion_name : String) (score max_score : ℤ)
    (_student_text _criterion_description : String) : CriterionFeedback :=
  let percentage : ℚ := ((score : ℚ) / (max_score : ℚ)) * 100
  if 80 ≤ percentage then
    { strength := some ("Excellent demonstration of " ++ pyLower criterion_name),
      weakness := none,
      suggestions := "Consider reviewing the requirements for " ++ pyLower criterion_name
        ++ " in the assessment brief" }
  else if 60 ≤ percentage then
    { strength := some ("Good demonstration of " ++ pyLower criterion_name),
      weakness := some ("Could further improve " ++ pyLower criterion_name
        ++ " by providing more depth"),
      suggestions := "Consider reviewing the requirements for " ++ pyLower criterion_name
        ++ " in the assessment brief" }
  else if 40 ≤ percentage then
    { strength := some ("Adequate demonstration of " ++ pyLower criterion_name),
      weakness := some ("Need to develop " ++ pyLower criterion_name ++ " more thoroughly"),
      suggestions := "Consider reviewing the requirements for " ++ pyLower criterion_name
        ++ " in the assessment brief" }
  else
    { strength := none,
      weakness := some ("Significant improvement needed in " ++ pyLower criterion_name),
      suggestions := "Consider reviewing the requirements for " ++ pyLower criterion_name
        ++ " in the assessment brief" }

/-- The scan of `AssessmentAI._determine_grade` over the boundary mapping:
first entry whose closed range contains the percentage. -/
def findBoundary (percentage : ℚ) : List (String × ℤ × ℤ) → Option String
  | [] => none
  | (g, lo, hi) :: rest =>
    if (lo : ℚ) ≤ percentage ∧ percentage ≤ (hi : ℚ) then some g
    else findBoundary percentage rest

/-- The default grade boundaries of `_determine_grade`. -/
def default_boundaries : List (String × ℤ × ℤ) :=
  [("A", 80, 100), ("B", 70, 79), ("C", 60, 69), ("D", 50, 59), ("F", 0, 49)]

/-- `AssessmentAI._determine_grade`: an empty boundary mapping is replaced
by the default one; a percentage matching no range falls back to the fixed
A/B/C/D/F banding. -/
def determine_grade (percentage : ℚ) (grade_boundaries : List (String × ℤ × ℤ)) : String :=
  let boundaries := if grade_boundaries = [] then default_boundaries else grade_boundaries
  match findBoundary percentage boundaries with
  | some g => g
  | none =>
    if 80 ≤ percentage then "A"
    else if 70 ≤ percentage then "B"
    else if 60 ≤ percentage then "C"
    else if 50 ≤ percentage then "D"
    else "F"

/-- `AssessmentAI._generate_overall_feedback`.  Python truthiness of the
strength/weakness strings is `some` and non-empty. -/
def generate_overall_feedback (criteria_marks : List CriterionMark) (percentage : ℚ)
    (_grade : String) (topic_coverage : ℚ) (url_analyses : List UrlAnalysis) :
    OverallFeedback :=
  let strengths :=
    (criteria_marks.filterMap (fun c => c.feedback.strength)).filter (fun s => s != "")
  let areas_for_improvement :=
    (criteria_marks.filterMap (fun c => c.feedback.weakness)).filter (fun s => s != "")
  let general_comments :=
    if 80 ≤ percentage then
      "Excellent work that demonstrates a comprehensive understanding of the subject matter."
    else if 70 ≤ percentage then
      "Very good work that shows a solid understanding of the subject matter."
    else if 60 ≤ percentage then
      "Good work that demonstrates understanding of most key aspects of the subject matter."
    else if 50 ≤ percentage then
      "Satisfactory work that meets the basic requirements but lacks depth in some areas."
    else
      "This work does not meet the minimum requirements and needs significant improvement."
  let general_comments := general_comments ++
    (if 4/5 < topic_coverage then " The work covers all key topics effectively."
     else if 3/5 < topic_coverage then
       " The work covers most key topics but could be more comprehensive."
     else " The work misses several key topics that should be addressed.")
  let general_comments := general_comments ++
    (if url_analyses ≠ [] then
       " The work incorporates " ++ toString url_analyses.length ++
         " external sources, which adds to its depth."
     else "")
  let recommendations :=
    ["Review the assessment brief to ensure all requirements are met",
     "Consider the feedback for each criterion to improve future work"] ++
    (if areas_for_improvement ≠ [] then
       ["Focus on addressing the identified areas for improvement"]
     else [])
  { general_comments := general_comments, strengths := strengths,
    areas_for_improvement := areas_for_improvement, recommendations := recommendations }

/-- The body of the per-criterion loop of `mark_student_work`: fixed
`criterion_max_score = 10`, score = `round(relevance * 10)`; the declared
criterion weight is never read. -/
def mark_criterion (student_work_text : String) (criterion : Criterion) : CriterionMark :=
  let relevance_score := calculate_criterion_relevance student_work_text criterion.keywords
  let criterion_max_score : ℤ := 10
  let criterion_score := pythonRound (relevance_score * (criterion_max_score : ℚ))
  { name := criterion.name, score := criterion_score, max_score := criterion_max_score,
    feedback := generate_criterion_feedback criterion.name criterion_score
      criterion_max_score student_work_text criterion.description }

/-- `AssessmentAI.mark_student_work`. -/
def mark_student_work (caps : Caps) (student_work_text : String)
    (brief_analysis : BriefAnalysis) (rubric_analysis : RubricAnalysis) : MarkingResult :=
  let urls := caps.extractUrls student_work_text
  let url_analyses := (urls.take 5).map (analyze_url_content caps)
  let word_count := caps.wordCount student_work_text
  let sentence_count := caps.sentCount student_work_text
  let avg_sentence_length : ℚ :=
    if 0 < sentence_count then (word_count : ℚ) / (sentence_count : ℚ) else 0
  let student_topics :=
    ((caps.nounChunks student_work_text).filter
      (fun c => decide (1 < (pySplit c.1).length) && (c.2 == "NOUN" || c.2 == "PROPN"))).map
      (fun c => pyLower c.1)
  let brief_topics := brief_analysis.key_topics
  let topic_coverage := calculate_topic_coverage caps.sim student_topics brief_topics
  let criteria_marks := rubric_analysis.criteria.map (mark_criterion student_work_text)
  let total_score := (criteria_marks.map CriterionMark.score).sum
  let max_score := (criteria_marks.map CriterionMark.max_score).sum
  let percentage : ℚ :=
    if 0 < max_score then (total_score : ℚ) / (max_score : ℚ) * 100 else 0
  let grade := determine_grade percentage rubric_analysis.grade_boundaries
  let feedback :=
    generate_overall_feedback criteria_marks percentage grade topic_coverage url_analyses
  { total_score := total_score, max_score := max_score, percentage := percentage,
    grade := grade, criteria_marks := criteria_marks, feedback := feedback,
    statistics := { word_count := word_count, sentence_count := sentence_count,
                    avg_sentence_length := avg_sentence_length, url_count := urls.length,
                    topic_coverage := topic_coverage },
    url_analyses := url_analyses }

/-- Result of `generate_analytics` (the non-error shape). -/
structure Analytics where
  count : ℕ
  avg_percentage : ℚ
  grade_distribution : List (String × ℕ)
  criteria_averages : List (String × ℚ)
  strengths : List String
  weaknesses : List String
  avg_word_count : ℚ
  min_word_count : ℕ
  max_word_count : ℕ
  avg_url_count : ℚ
deriving DecidableEq

/-- A Python dictionary holding list values, modelled as the value map
together with the insertion-ordered key list; appending to
`dict[key]` (creating the key at the back when new). -/
def listDictAppend (d : (String → List ℚ) × List String) (key : String) (p : ℚ) :
    (String → List ℚ) × List String :=
  (fun x => if x = key then d.1 x ++ [p] else d.1 x,
   if key ∈ d.2 then d.2 else d.2 ++ [key])

/-- A Python counting dictionary: `dict[key] = dict.get(key, 0) + 1`. -/
def countDictIncr (d : (String → ℕ) × List String) (key : String) :
    (String → ℕ) × List String :=
  (fun x => if x = key then d.1 x + 1 else d.1 x,
   if key ∈ d.2 then d.2 else d.2 ++ [key])

/-- Python `min` over a list, with the source's `if word_counts else 0`
guard folded in. -/
def listMin : List ℕ → ℕ
  | [] => 0
  | x :: xs => xs.foldl Nat.min x

/-- Python `max` over a list, with the source's empty guard folded in. -/
def listMax : List ℕ → ℕ
  | [] => 0
  | x :: xs => xs.foldl Nat.max x

/-- Percentage of one criterion mark as computed inside
`generate_analytics` (`score / max_score * 100`, 0 when `max_score` is 0). -/
def crit_mark_percentage (cm : CriterionMark) : ℚ :=
  if 0 < cm.max_score then ((cm.score : ℚ) / (cm.max_score : ℚ)) * 100 else 0

/-- The (name, percentage) pairs appended into the criteria dictionary of
`generate_analytics`, in iteration order. -/
def crit_perc_pairs (marking_results : List MarkingResult) : List (String × ℚ) :=
  marking_results.flatMap
    (fun r => r.criteria_marks.map (fun cm => (cm.name, crit_mark_percentage cm)))

/-- Mean of the per-criterion percentages that `generate_analytics` groups
under one criterion name (matched by name equality across all results). -/
def criterion_mean (marking_results : List MarkingResult) (nm : String) : ℚ :=
  let ps := ((crit_perc_pairs marking_results).filter (fun p => p.1 == nm)).map Prod.snd
  ps.sum / (ps.length : ℚ)

/-- `AssessmentAI.generate_analytics`: the empty input returns the
`NoDataError` value `{'error': 'No marking results provided'}`, modelled as
`Except.error`; otherwise cohort statistics are computed in one pass. -/
def generate_analytics (marking_results : List MarkingResult) : Except String Analytics :=
  if marking_results = [] then Except.error "No marking results provided"
  else
    let total_percentages := marking_results.map MarkingResult.percentage
    let avg_percentage := total_percentages.sum / (total_percentages.length : ℚ)
    let grades := marking_results.map MarkingResult.grade
    let gdict := grades.foldl countDictIncr ((fun _ => 0), [])
    let grade_distribution := gdict.2.map (fun g => (g, gdict.1 g))
    let cdict :=
      (crit_perc_pairs marking_results).foldl
        (fun d p => listDictAppend d p.1 p.2) ((fun _ => []), [])
    let criteria_averages :=
      cdict.2.map (fun nm => (nm, (cdict.1 nm).sum / (((cdict.1 nm).length : ℚ))))
    let strengths := (criteria_averages.filter (fun kv => decide (70 ≤ kv.2))).map Prod.fst
    let weaknesses :=
      (criteria_averages.filter
        (fun kv => !(decide (70 ≤ kv.2)) && decide (kv.2 ≤ 50))).map Prod.fst
    let word_counts : List ℕ := marking_results.map (fun r => r.statistics.word_count)
    let avg_word_count : ℚ :=
      if word_counts ≠ [] then
        (word_counts.map (fun n => (n : ℚ))).sum / (word_counts.length : ℚ)
      else 0
    let url_counts : List ℕ := marking_results.map (fun r => r.statistics.url_count)
    let avg_url_count : ℚ :=
      if url_counts ≠ [] then
        (url_counts.map (fun n => (n : ℚ))).sum / (url_counts.length : ℚ)
      else 0
    Except.ok
      { count := marking_results.length,
        avg_percentage := avg_percentage,
        grade_distribution := grade_distribution,
        criteria_averages := criteria_averages,
        strengths := strengths,
        weaknesses := weaknesses,
        avg_word_count := avg_word_count,
        min_word_count := listMin word_counts,
        max_word_count := listMax word_counts,
        avg_url_count := avg_url_count }

/-- The projection of a criterion to everything `mark_student_work` reads
from it: its name, description and keywords — the declared weight is left
out. -/
def crit_strip_weight (c : Criterion) : String × String × List String :=
  (c.name, c.description, c.keywords)

/-- Capabilities that find nothing and whose every fetch fails: used to
instantiate theorems at concrete inputs. -/
def trivCaps : Caps where
  fetch := fun _ => Except.error "connection error"
  titleOf := fun _ => none
  paragraphTexts := fun _ => []
  metaDescription := fun _ => none
  nounChunks := fun _ => []
  entities := fun _ => []
  sim := fun _ _ => 0
  wordCount := fun _ => 0
  sentCount := fun _ => 0
  extractUrls := fun _ => []
  extractKeywords := fun _ => []
  weightedMatches := fun _ => []
  gradeBoundaries := fun _ => []

/-- Capabilities whose fetch succeeds with a page holding one multi-word
noun phrase: used to instantiate the URL-analysis theorems. -/
def pageCaps : Caps :=
  { trivCaps with
      fetch := fun _ => Except.ok "<html><p>alpha beta</p></html>",
      titleOf := fun _ => some "T",
      metaDescription := fun _ => some "m",
      paragraphTexts := fun _ => ["alpha beta"],
      nounChunks := fun _ => [("alpha beta", "NOUN"), ("gamma", "NOUN")],
      entities := fun _ => [("alpha", "ORG")] }

/-- Capabilities whose fetch succeeds but whose page has no paragraph text:
the extracted content is empty. -/
def noParaCaps : Caps :=
  { trivCaps with fetch := fun _ => Except.ok "<html></html>" }

/-- An empty brief analysis, for concrete instantiations. -/
def exBrief : BriefAnalysis :=
  { requirements := [], learning_outcomes := [], submission_details := [],
    key_topics := [], full_text := "" }

/-- A one-criterion rubric analysis. -/
def exRubricA : RubricAnalysis :=
  { criteria := [{ name := "Content", weight := 40,
                   description := "Quality of content", keywords := ["alpha"] }],
    grade_boundaries := [], full_text := "r" }

/-- The same rubric analysis with a different declared weight. -/
def exRubricB : RubricAnalysis :=
  { criteria := [{ name := "Content", weight := 7,
                   description := "Quality of content", keywords := ["alpha"] }],
    grade_boundaries := [], full_text := "r" }

/-- A marking result with percentage 72 and one criterion Content scored
9 of 10, as in the specification's aggregation example. -/
def exResult : MarkingResult :=
  { total_score := 9, max_score := 10, percentage := 72, grade := "B",
    criteria_marks := [{ name := "Content", score := 9, max_score := 10,
                         feedback := { strength := none, weakness := none,
                                       suggestions := "" } }],
    feedback := { general_comments := "", strengths := [],
                  areas_for_improvement := [], recommendations := [] },
    statistics := { word_count := 0, sentence_count := 0, avg_sentence_length := 0,
                    url_count := 0, topic_coverage := 0 },
    url_analyses := [] }

/-! ## Helper lemmas -/

theorem calculate_criterion_relevance_bounds (text : String) (kws : List String) :
    3/10 ≤ calculate_criterion_relevance text kws ∧
      calculate_criterion_relevance text kws ≤ 9/10 := by
  unfold calculate_criterion_relevance
  split
  · norm_num
  · exact ⟨le_min (by norm_num) (le_max_left _ _), min_le_left _ _⟩

theorem le_pythonRound (n : ℤ) (q : ℚ) (h : (n : ℚ) ≤ q) : n ≤ pythonRound q := by
  have hf : n ≤ ⌊q⌋ := Int.le_floor.mpr h
  simp only [pythonRound]
  split_ifs <;> omega

theorem pythonRound_le (n : ℤ) (q : ℚ) (h : q ≤ (n : ℚ)) : pythonRound q ≤ n := by
  have hf : ⌊q⌋ ≤ n := by
    have h2 := Int.floor_le_floor h
    simpa using h2
  have hfl : (⌊q⌋ : ℚ) ≤ q := Int.floor_le q
  simp only [pythonRound]
  split_ifs with h1 h2 h3
  · exact hf
  · have hq : (⌊q⌋ : ℚ) < (n : ℚ) := by linarith
    have hq' : ⌊q⌋ < n := by exact_mod_cast hq
    omega
  · exact hf
  · push_neg at h1 h3
    have hq : (⌊q⌋ : ℚ) < (n : ℚ) := by linarith
    have hq' : ⌊q⌋ < n := by exact_mod_cast hq
    omega

/-! ## The claims -/

/-- C6: with zero criteria, `mark_student_work` yields `totalScore = 0`,
`maxScore = 0` and percentage exactly 0 — the zero-max-score case is an
explicit fallback, never a division fault. -/
theorem C6_zero_criteria_zero_percentage (caps : Caps) (text : String)
    (brief : BriefAnalysis) (gb : List (String × ℤ × ℤ)) (ft : String) :
    (mark_student_work caps text brief ⟨[], gb, ft⟩).total_score = 0 ∧
    (mark_student_work caps text brief ⟨[], gb, ft⟩).max_score = 0 ∧
    (mark_student_work caps text brief ⟨[], gb, ft⟩).percentage = 0 :=
  ⟨rfl, rfl, rfl⟩

/-- C9: whenever the fetch capability fails (network failure, or a non-2xx
status turned into an exception by `raise_for_status`), `analyze_url_content`
returns the failed variant carrying the error description; being a total
function, it never propagates the exception past this boundary. -/
theorem C9_fetch_failure_failed_variant (caps : Caps) (url e : String)
    (h : caps.fetch url = Except.error e) :
    analyze_url_content caps url = UrlAnalysis.failed url e := by
  unfold analyze_url_content
  rw [h]

theorem C9_fetch_failure_failed_variant_witness :
    analyze_url_content trivCaps "http://x.org" =
      UrlAnalysis.failed "http://x.org" "connection error" :=
  C9_fetch_failure_failed_variant trivCaps "http://x.org" "connection error" rfl

/-- C3: with an empty grade-boundary map, grade determination follows the
fixed banding A ≥ 80, B ≥ 70, C ≥ 60, D ≥ 50, else F on all of [0, 100]
(non-integer percentages in the gaps of the integer default ranges fall
through to the fallback chain with the same outcome); in particular
`determine_grade 85 [] = "A"` and `determine_grade 55 [] = "D"`. -/
theorem C3_empty_boundaries_default_banding :
    (∀ p : ℚ, 0 ≤ p → p ≤ 100 →
      determine_grade p [] =
        (if 80 ≤ p then "A" else if 70 ≤ p then "B" else if 60 ≤ p then "C"
         else if 50 ≤ p then "D" else "F")) ∧
    determine_grade 85 [] = "A" ∧ determine_grade 55 [] = "D" := by
  refine ⟨?_, by decide, by decide⟩
  intro p h0 h100
  simp only [determine_grade, default_boundaries, findBoundary, if_pos rfl]
  norm_num
  split_ifs <;> simp_all <;> linarith

theorem C3_empty_boundaries_default_banding_witness :
    determine_grade (159/2) [] =
      (if 80 ≤ (159/2 : ℚ) then "A" else if 70 ≤ (159/2 : ℚ) then "B"
       else if 60 ≤ (159/2 : ℚ) then "C" else if 50 ≤ (159/2 : ℚ) then "D" else "F") :=
  C3_empty_boundaries_default_banding.1 (159/2) (by norm_num) (by norm_num)

/-- C4: topic coverage is 1.0 on an empty brief-topic list; it is 0.0 for a
non-empty brief list against an empty student-topic list under an
always-zero similarity capability; and on every non-empty brief list it
equals the number of covered brief topics (each counted at most once, the
inner loop breaking at the first cover) divided by the total, hence always
lies in [0, 1]. -/
theorem C4_topic_coverage_cases :
    (∀ (sim : String → String → ℚ) (student : List String),
      calculate_topic_coverage sim student [] = 1) ∧
    (∀ (sim : String → String → ℚ) (brief : List String), brief ≠ [] →
      (∀ a b, sim a b = 0) → calculate_topic_coverage sim [] brief = 0) ∧
    (∀ (sim : String → String → ℚ) (student brief : List String), brief ≠ [] →
      calculate_topic_coverage sim student brief =
        (brief.countP (fun bt => student.any (topic_matches sim bt)) : ℚ) /
          (brief.length : ℚ)) ∧
    (∀ (sim : String → String → ℚ) (student brief : List String),
      0 ≤ calculate_topic_coverage sim student brief ∧
        calculate_topic_coverage sim student brief ≤ 1) := by
  refine ⟨fun sim student => rfl, ?_, ?_, ?_⟩
  · intro sim brief hb hsim
    simp [calculate_topic_coverage, hb]
  · intro sim student brief hb
    simp [calculate_topic_coverage, hb]
  · intro sim student brief
    unfold calculate_topic_coverage
    split_ifs with hb
    · norm_num
    · have hlen : 0 < (brief.length : ℚ) := by
        have := List.length_pos.mpr hb
        exact_mod_cast this
      constructor
      · positivity
      · rw [div_le_one hlen]
        exact_mod_cast List.countP_le_length _

theorem C4_topic_coverage_cases_witness :
    calculate_topic_coverage (fun _ _ => 0) [] ["climate change"] = 0 :=
  C4_topic_coverage_cases.2.1 (fun _ _ => 0) ["climate change"] (by decide)
    (fun _ _ => rfl)

/-- C2: a criterion with keywords gets relevance equal to the fraction of
its keywords present (case-insensitively, as substrings of the lower-cased
submission) clamped to [0.3, 0.9]; with no keywords the relevance is 0.5;
and inside `mark_student_work` every criterion's score is
`round(relevance * 10)` against a fixed maxScore of 10. -/
theorem C2_criterion_relevance_and_score :
    (∀ (text : String) (kws : List String), kws ≠ [] →
      calculate_criterion_relevance text kws =
        min (9/10) (max (3/10)
          ((kws.countP (fun kw => pyIn (pyLower kw) (pyLower text)) : ℚ) /
            (kws.length : ℚ)))) ∧
    (∀ text : String, calculate_criterion_relevance text [] = 1/2) ∧
    (∀ (caps : Caps) (text : String) (brief : BriefAnalysis) (r : RubricAnalysis),
      (mark_student_work caps text brief r).criteria_marks.map
          (fun cm => (cm.score, cm.max_score)) =
        r.criteria.map (fun c =>
          (pythonRound (calculate_criterion_relevance text c.keywords * 10), (10 : ℤ)))) := by
  refine ⟨?_, fun text => rfl, ?_⟩
  · intro text kws h
    simp [calculate_criterion_relevance, h]
  · intro caps text brief r
    show (r.criteria.map (mark_criterion text)).map (fun cm => (cm.score, cm.max_score)) = _
    rw [List.map_map]
    refine List.map_congr_left (fun c _ => ?_)
    simp only [Function.comp, mark_criterion]
    norm_num

theorem C2_criterion_relevance_and_score_witness :
    calculate_criterion_relevance "Alpha beta gamma" ["alpha", "delta"] =
      min (9/10) (max (3/10)
        ((["alpha", "delta"].countP
            (fun kw => pyIn (pyLower kw) (pyLower "Alpha beta gamma")) : ℚ) /
          ((["alpha", "delta"] : List String).length : ℚ))) :=
  C2_criterion_relevance_and_score.1 "Alpha beta gamma" ["alpha", "delta"] (by decide)

/-- C7: whenever the weighted-pattern pass and the paragraph-heuristic pass
both extract zero criteria, `process_rubric` falls back to exactly the
default 4-criterion set Content/40, Structure/30, Research/20, Language/10;
consequently the criteria list is never empty. -/
theorem C7_rubric_default_fallback (caps : Caps) (text : String) :
    ((caps.weightedMatches text = [] ∧ paragraph_pass caps text = []) →
      (process_rubric caps text).criteria = default_criteria) ∧
    (process_rubric caps text).criteria ≠ [] := by
  constructor
  · rintro ⟨h1, h2⟩
    simp [process_rubric, h1, h2]
  · simp only [process_rubric]
    by_cases h1 : (caps.weightedMatches text).map (fun m =>
      { name := pyStrip m.name, weight := m.weight,
        description := pyStrip m.description,
        keywords := caps.extractKeywords (pyStrip m.description) : Criterion }) = []
    · by_cases h2 : paragraph_pass caps text = []
      · simp [h1, h2, default_criteria]
      · simp [h1, h2]
    · simp [h1]

theorem C7_rubric_default_fallback_witness :
    (process_rubric trivCaps ")").criteria = default_criteria :=
  (C7_rubric_default_fallback trivCaps ")").1 (by constructor <;> decide)

theorem sum_map_const_ten (l : List Criterion) :
    (l.map (fun _ => (10 : ℤ))).sum = 10 * l.length := by
  induction l with
  | nil => simp
  | cons a t ih => simp [ih]; ring

theorem sum_bounds_int (l : List ℤ) (a b : ℤ) (h : ∀ x ∈ l, a ≤ x ∧ x ≤ b) :
    a * l.length ≤ l.sum ∧ l.sum ≤ b * l.length := by
  induction l with
  | nil => simp
  | cons x t ih =>
    have hx := h x (List.mem_cons_self x t)
    have ht := ih (fun y hy => h y (List.mem_cons_of_mem x hy))
    simp only [List.sum_cons, List.length_cons]
    push_cast
    constructor <;> nlinarith [ht.1, ht.2, hx.1, hx.2]

theorem mark_criterion_score_bounds (text : String) (c : Criterion) :
    3 ≤ (mark_criterion text c).score ∧ (mark_criterion text c).score ≤ 9 := by
  have hrel := calculate_criterion_relevance_bounds text c.keywords
  constructor
  · exact le_pythonRound 3 _ (by push_cast; linarith [hrel.1])
  · exact pythonRound_le 9 _ (by push_cast; linarith [hrel.2])

/-- C10: with at least one criterion, every per-criterion score is in
{3, ..., 9} and the overall percentage is in [30, 90] — the clamp of the
relevance to [0.3, 0.9] (or its 0.5 default) makes marks below 30% or above
90% impossible. -/
theorem C10_percentage_always_in_30_90 (caps : Caps) (text : String)
    (brief : BriefAnalysis) (r : RubricAnalysis) (h : r.criteria ≠ []) :
    (∀ cm ∈ (mark_student_work caps text brief r).criteria_marks,
        3 ≤ cm.score ∧ cm.score ≤ 9) ∧
    30 ≤ (mark_student_work caps text brief r).percentage ∧
    (mark_student_work caps text brief r).percentage ≤ 90 := by
  have hmarks : (mark_student_work caps text brief r).criteria_marks =
      r.criteria.map (mark_criterion text) := rfl
  have hscores : ∀ cm ∈ (mark_student_work caps text brief r).criteria_marks,
      3 ≤ cm.score ∧ cm.score ≤ 9 := by
    intro cm hcm
    rw [hmarks] at hcm
    obtain ⟨c, _, rfl⟩ := List.mem_map.mp hcm
    exact mark_criterion_score_bounds text c
  refine ⟨hscores, ?_⟩
  have hn : 0 < r.criteria.length := List.length_pos.mpr h
  have hmax : ((r.criteria.map (mark_criterion text)).map CriterionMark.max_score).sum =
      10 * r.criteria.length := by
    rw [List.map_map]
    have hc : r.criteria.map (CriterionMark.max_score ∘ mark_criterion text) =
        r.criteria.map (fun _ => (10 : ℤ)) := List.map_congr_left (fun c _ => rfl)
    rw [hc, sum_map_const_ten]
  have htot := sum_bounds_int ((r.criteria.map (mark_criterion text)).map CriterionMark.score)
      3 9 (by
        intro x hx
        obtain ⟨cm, hcm, rfl⟩ := List.mem_map.mp hx
        exact hscores cm (by rw [hmarks]; exact hcm))
  have hlen : ((r.criteria.map (mark_criterion text)).map CriterionMark.score).length =
      r.criteria.length := by simp
  rw [hlen] at htot
  have hperc : (mark_student_work caps text brief r).percentage =
      if 0 < ((r.criteria.map (mark_criterion text)).map CriterionMark.max_score).sum
      then ((((r.criteria.map (mark_criterion text)).map CriterionMark.score).sum : ℤ) : ℚ) /
          ((((r.criteria.map (mark_criterion text)).map CriterionMark.max_score).sum : ℤ) : ℚ) * 100
      else 0 := rfl
  rw [hperc, hmax, if_pos (by positivity)]
  set ts := ((r.criteria.map (mark_criterion text)).map CriterionMark.score).sum with hts
  have h1 : ((3 * r.criteria.length : ℤ) : ℚ) ≤ (ts : ℚ) := by exact_mod_cast htot.1
  have h2 : (ts : ℚ) ≤ ((9 * r.criteria.length : ℤ) : ℚ) := by exact_mod_cast htot.2
  have hnq : (0 : ℚ) < ((10 * r.criteria.length : ℤ) : ℚ) := by
    have : (0 : ℤ) < 10 * r.criteria.length := by positivity
    exact_mod_cast this
  push_cast at h1 h2 hnq ⊢
  rw [div_mul_eq_mul_div]
  constructor
  · rw [le_div_iff₀ hnq]
    nlinarith
  · rw [div_le_iff₀ hnq]
    nlinarith

theorem C10_percentage_always_in_30_90_witness :
    30 ≤ (mark_student_work trivCaps "w" exBrief exRubricA).percentage ∧
    (mark_student_work trivCaps "w" exBrief exRubricA).percentage ≤ 90 :=
  (C10_percentage_always_in_30_90 trivCaps "w" exBrief exRubricA (by decide)).2

theorem mark_criterion_congr (t : String) (c1 c2 : Criterion)
    (h : crit_strip_weight c1 = crit_strip_weight c2) :
    mark_criterion t c1 = mark_criterion t c2 := by
  simp only [crit_strip_weight, Prod.mk.injEq] at h
  obtain ⟨h1, h2, h3⟩ := h
  simp [mark_criterion, h1, h2, h3]

theorem map_mark_of_strip_eq (t : String) :
    ∀ l1 l2 : List Criterion, l1.map crit_strip_weight = l2.map crit_strip_weight →
      l1.map (mark_criterion t) = l2.map (mark_criterion t) := by
  intro l1
  induction l1 with
  | nil =>
    intro l2 h
    cases l2 with
    | nil => rfl
    | cons b t2 => simp at h
  | cons a t1 ih =>
    intro l2 h
    cases l2 with
    | nil => simp at h
    | cons b t2 =>
      simp only [List.map_cons, List.cons.injEq] at h ⊢
      exact ⟨mark_criterion_congr t a b h.1, ih t2 h.2⟩

/-- C1: the declared criterion weights are never read by the scoring
arithmetic — two rubric analyses identical up to the weights of their
criteria produce identical marking results; every criterion contributes
the same fixed maxScore 10, and the total maxScore is 10 times the number
of criteria. -/
theorem C1_weights_never_applied (caps : Caps) (text : String) (brief : BriefAnalysis)
    (r1 r2 : RubricAnalysis)
    (hcrit : r1.criteria.map crit_strip_weight = r2.criteria.map crit_strip_weight)
    (hgb : r1.grade_boundaries = r2.grade_boundaries)
    (_hft : r1.full_text = r2.full_text) :
    mark_student_work caps text brief r1 = mark_student_work caps text brief r2 ∧
    (∀ cm ∈ (mark_student_work caps text brief r1).criteria_marks, cm.max_score = 10) ∧
    (mark_student_work caps text brief r1).max_score = 10 * r1.criteria.length := by
  have hmap := map_mark_of_strip_eq text r1.criteria r2.criteria hcrit
  refine ⟨?_, ?_, ?_⟩
  · simp only [mark_student_work]
    rw [hmap, hgb]
  · intro cm hcm
    have hmarks : (mark_student_work caps text brief r1).criteria_marks =
        r1.criteria.map (mark_criterion text) := rfl
    rw [hmarks] at hcm
    obtain ⟨c, _, rfl⟩ := List.mem_map.mp hcm
    rfl
  · show ((r1.criteria.map (mark_criterion text)).map CriterionMark.max_score).sum = _
    rw [List.map_map]
    have hc : r1.criteria.map (CriterionMark.max_score ∘ mark_criterion text) =
        r1.criteria.map (fun _ => (10 : ℤ)) := List.map_congr_left (fun c _ => rfl)
    rw [hc, sum_map_const_ten]

theorem C1_weights_never_applied_witness :
    mark_student_work trivCaps "w" exBrief exRubricA =
      mark_student_work trivCaps "w" exBrief exRubricB :=
  (C1_weights_never_applied trivCaps "w" exBrief exRubricA exRubricB
    (by decide) rfl rfl).1

/-- C8, counterexample to the claim as stated: a successful fetch whose
page has no paragraph text produces a successful record (not the failed
variant) that carries no `key_phrases`/`entities` fields at all — the
Python function only adds them when the extracted content is non-empty. -/
theorem C8_url_analysis_counterexample :
    (analyze_url_content noParaCaps "http://example.org").is_failed = false ∧
    (analyze_url_content noParaCaps "http://example.org").has_phrase_fields = false := by
  decide

/-- C8, amended: for a successful fetch of `body`, every full success
record carries at most 10 multi-word key phrases and at most 10 named
entities, and its content sample is the extracted paragraph content itself
when that content is at most 500 characters, and otherwise the content's
first 500 characters with an ellipsis marker appended; a success record
without phrase fields arises exactly from empty extracted content and has
an empty content sample. -/
theorem C8_url_analysis_bounds (caps : Caps) (url body : String)
    (hf : caps.fetch url = Except.ok body) :
    (∀ u t m kp es cs, analyze_url_content caps url = UrlAnalysis.success u t m kp es cs →
      kp.length ≤ 10 ∧ (∀ p ∈ kp, 1 < (pySplit p).length) ∧ es.length ≤ 10 ∧
      ((extracted_content caps body).length ≤ 500 → cs = extracted_content caps body) ∧
      (500 < (extracted_content caps body).length →
        cs = pyTake (extracted_content caps body) 500 ++ "...")) ∧
    (∀ u t m cs, analyze_url_content caps url = UrlAnalysis.successNoContent u t m cs →
      cs = "" ∧ extracted_content caps body = "") := by
  have hbody : analyze_url_content caps url =
      (let title := (caps.titleOf body).getD "No title"
       let content := extracted_content caps body
       let meta_description := (caps.metaDescription body).getD ""
       let content_sample :=
         if 500 < content.length then pyTake content 500 ++ "..." else content
       if content ≠ "" then
         let doc := pyTake content 5000
         let key_phrases :=
           (((caps.nounChunks doc).map Prod.fst).filter
             (fun x => decide (1 < (pySplit x).length))).take 10
         let ents := (caps.entities doc).take 10
         UrlAnalysis.success url title meta_description key_phrases ents content_sample
       else
         UrlAnalysis.successNoContent url title meta_description content_sample) := by
    rw [analyze_url_content, hf]
  set content := extracted_content caps body with hcontent
  simp only at hbody
  by_cases hc : content = ""
  · rw [if_neg (by simp [hc])] at hbody
    constructor
    · intro u t m kp es cs heq
      rw [hbody] at heq
      exact absurd heq (by simp)
    · intro u t m cs heq
      rw [hbody] at heq
      simp only [UrlAnalysis.successNoContent.injEq] at heq
      refine ⟨?_, hc⟩
      rw [← heq.2.2.2, hc]
      decide
  · rw [if_pos hc] at hbody
    constructor
    · intro u t m kp es cs heq
      rw [hbody] at heq
      simp only [UrlAnalysis.success.injEq] at heq
      obtain ⟨-, -, -, hkp, hes, hcs⟩ := heq
      refine ⟨?_, ?_, ?_, ?_, ?_⟩
      · rw [← hkp]
        exact List.length_take_le 10 _
      · intro p hp
        rw [← hkp] at hp
        have hp' := List.mem_of_mem_take hp
        exact of_decide_eq_true (List.mem_filter.mp hp').2
      · rw [← hes]
        exact List.length_take_le 10 _
      · intro hle
        rw [← hcs, if_neg (by omega)]
      · intro hlt
        rw [← hcs, if_pos hlt]
    · intro u t m cs heq
      rw [hbody] at heq
      exact absurd heq (by simp)

theorem C8_url_analysis_bounds_witness :
    (["alpha beta"] : List String).length ≤ 10 ∧
    (∀ p ∈ (["alpha beta"] : List String), 1 < (pySplit p).length) ∧
    ([("alpha", "ORG")] : List (String × String)).length ≤ 10 ∧
    ((extracted_content pageCaps "<html><p>alpha beta</p></html>").length ≤ 500 →
      "alpha beta " = extracted_content pageCaps "<html><p>alpha beta</p></html>") ∧
    (500 < (extracted_content pageCaps "<html><p>alpha beta</p></html>").length →
      "alpha beta " = pyTake (extracted_content pageCaps "<html><p>alpha beta</p></html>") 500
        ++ "...") :=
  (C8_url_analysis_bounds pageCaps "http://example.org" "<html><p>alpha beta</p></html>"
      rfl).1
    "http://example.org" "T" "m" ["alpha beta"] [("alpha", "ORG")] "alpha beta "
    (by decide)

theorem listDict_val (l : List (String × ℚ)) (d : (String → List ℚ) × List String)
    (nm : String) :
    (l.foldl (fun d p => listDictAppend d p.1 p.2) d).1 nm =
      d.1 nm ++ (l.filter (fun p => p.1 == nm)).map Prod.snd := by
  induction l generalizing d with
  | nil => simp
  | cons hd tl ih =>
    rw [List.foldl_cons, ih, List.filter_cons]
    by_cases h : hd.1 = nm
    · simp [listDictAppend, h]
    · simp [listDictAppend, h, Ne.symm h]

theorem listDict_keys (l : List (String × ℚ)) (d : (String → List ℚ) × List String)
    (nm : String) :
    nm ∈ (l.foldl (fun d p => listDictAppend d p.1 p.2) d).2 ↔
      nm ∈ d.2 ∨ nm ∈ l.map Prod.fst := by
  induction l generalizing d with
  | nil => simp
  | cons hd tl ih =>
    rw [List.foldl_cons, ih]
    simp only [listDictAppend, List.map_cons, List.mem_cons]
    split_ifs with h
    · constructor
      · rintro (hx | hx)
        · exact Or.inl hx
        · exact Or.inr (Or.inr hx)
      · rintro (hx | hx | hx)
        · exact Or.inl hx
        · exact Or.inl (hx ▸ h)
        · exact Or.inr hx
    · rw [List.mem_append, List.mem_singleton]
      tauto

theorem generate_analytics_spec (rs : List MarkingResult) (hne : rs ≠ []) :
    ∃ a, generate_analytics rs = Except.ok a ∧
      a.avg_percentage = (rs.map MarkingResult.percentage).sum / (rs.length : ℚ) ∧
      (∀ kv ∈ a.criteria_averages, kv.2 = criterion_mean rs kv.1) ∧
      (∀ nm, nm ∈ a.criteria_averages.map Prod.fst ↔
        nm ∈ (crit_perc_pairs rs).map Prod.fst) ∧
      (∀ nm, nm ∈ (crit_perc_pairs rs).map Prod.fst →
        (nm ∈ a.strengths ↔ 70 ≤ criterion_mean rs nm)) := by
  rw [generate_analytics, if_neg hne]
  refine ⟨_, rfl, ?_, ?_, ?_, ?_⟩
  · show (rs.map MarkingResult.percentage).sum /
        ((rs.map MarkingResult.percentage).length : ℚ) = _
    rw [List.length_map]
  · intro kv hkv
    obtain ⟨nm, hnm, rfl⟩ := List.mem_map.mp hkv
    show ((((crit_perc_pairs rs).foldl (fun d p => listDictAppend d p.1 p.2)
        ((fun _ => []), [])).1 nm).sum) / _ = _
    rw [listDict_val]
    simp [criterion_mean]
  · intro nm
    constructor
    · intro h
      obtain ⟨kv, hkv, rfl⟩ := List.mem_map.mp h
      obtain ⟨k, hk, rfl⟩ := List.mem_map.mp hkv
      have h2 := (listDict_keys _ _ _).mp hk
      simpa using h2
    · intro h
      have hkey : nm ∈ (((crit_perc_pairs rs).foldl (fun d p => listDictAppend d p.1 p.2)
          ((fun _ => []), [])).2) := (listDict_keys _ _ _).mpr (Or.inr h)
      exact List.mem_map.mpr ⟨_, List.mem_map.mpr ⟨nm, hkey, rfl⟩, rfl⟩
  · intro nm hnm
    show nm ∈ (List.filter _ (((crit_perc_pairs rs).foldl
        (fun d p => listDictAppend d p.1 p.2) ((fun _ => []), [])).2.map _)).map Prod.fst ↔ _
    rw [List.mem_map]
    constructor
    · rintro ⟨kv, hkv, rfl⟩
      have h1 := List.mem_filter.mp hkv
      obtain ⟨k, hk, rfl⟩ := List.mem_map.mp h1.1
      have h70 := of_decide_eq_true h1.2
      rw [listDict_val] at h70
      simpa [criterion_mean] using h70
    · intro h70
      have hkey : nm ∈ (((crit_perc_pairs rs).foldl (fun d p => listDictAppend d p.1 p.2)
          ((fun _ => []), [])).2) := (listDict_keys _ _ _).mpr (Or.inr hnm)
      refine ⟨_, List.mem_filter.mpr ⟨List.mem_map.mpr ⟨nm, hkey, rfl⟩, ?_⟩, rfl⟩
      rw [decide_eq_true_eq, listDict_val]
      simpa [criterion_mean] using h70

theorem crit_perc_pairs_exResult : crit_perc_pairs [exResult] = [("Content", (90 : ℚ))] := by
  simp only [crit_perc_pairs, exResult, crit_mark_percentage]
  norm_num

theorem criterion_mean_exResult : criterion_mean [exResult] "Content" = 90 := by
  rw [criterion_mean, crit_perc_pairs_exResult]
  norm_num

/-- C5: the Analytics Aggregator returns the `NoDataError` value on the
empty input and never a zero-valued summary; on every non-empty input the
average percentage is the arithmetic mean of the inputs' percentages, the
criteria-averages entries are exactly the names occurring in the inputs
each paired with the mean of its per-criterion percentages (matched by
name), and an occurring criterion name is in `strengths` exactly when its
mean is at least 70; in particular a single result with percentage 72 and
one criterion Content at 90% yields average 72, a Content average of 90,
and Content among the strengths. -/
theorem C5_analytics_aggregator :
    generate_analytics [] = Except.error "No marking results provided" ∧
    (∀ rs : List MarkingResult, rs ≠ [] →
      ∃ a, generate_analytics rs = Except.ok a ∧
        a.avg_percentage = (rs.map MarkingResult.percentage).sum / (rs.length : ℚ) ∧
        (∀ kv ∈ a.criteria_averages, kv.2 = criterion_mean rs kv.1) ∧
        (∀ nm, nm ∈ a.criteria_averages.map Prod.fst ↔
          nm ∈ (crit_perc_pairs rs).map Prod.fst) ∧
        (∀ nm, nm ∈ (crit_perc_pairs rs).map Prod.fst →
          (nm ∈ a.strengths ↔ 70 ≤ criterion_mean rs nm))) ∧
    (∃ a, generate_analytics [exResult] = Except.ok a ∧
      a.avg_percentage = 72 ∧ ("Content", (90 : ℚ)) ∈ a.criteria_averages ∧
      "Content" ∈ a.strengths) := by
  refine ⟨rfl, generate_analytics_spec, ?_⟩
  obtain ⟨a, hok, havg, hval, hkeys, hstr⟩ :=
    generate_analytics_spec [exResult] (by simp)
  have hC : "Content" ∈ (crit_perc_pairs [exResult]).map Prod.fst := by
    rw [crit_perc_pairs_exResult]
    simp
  refine ⟨a, hok, ?_, ?_, ?_⟩
  · rw [havg]
    simp [exResult]
  · have h2 := (hkeys "Content").mpr hC
    obtain ⟨kv, hkv, hfst⟩ := List.mem_map.mp h2
    have h3 := hval kv hkv
    obtain ⟨k, v⟩ := kv
    simp only at hfst h3
    subst hfst
    rw [criterion_mean_exResult] at h3
    subst h3
    exact hkv
  · rw [hstr "Content" hC, criterion_mean_exResult]
    norm_num

theorem C5_analytics_aggregator_witness :
    ∃ a, generate_analytics [exResult] = Except.ok a ∧
      a.avg_percentage = ([exResult].map MarkingResult.percentage).sum /
        (([exResult] : List MarkingResult).length : ℚ) := by
  obtain ⟨a, h1, h2, -, -, -⟩ := C5_analytics_aggregator.2.1 [exResult] (by simp)
  exact ⟨a, h1, h2⟩
